import Mathlib

/-!
Verification of the EleDo privilege bridge (Rust sources `src/bin/eledo.rs`
and `src/src/bridge.rs`) against its natural-language specification.

The embedding models the originator (`BridgeServer`), its `start`/`serve`
orchestration, the `Drop` restoration handler, and the `eledo` front-end
`main`.  Windows API calls are modelled by explicit environments recording
the outcome of each fallible call (`StartEnv`, `ServeEnv`, `EledoEnv`);
handles are modelled by the path / device-name strings that identify them;
concurrency-relevant behaviour of `serve` is modelled as the sequence of
events (client waits, relay-thread spawns, child wait, thread joins) the
originator's main thread performs, in program order.
-/

namespace EleDo

/-- `PrivilegeLevel` (deelevate): classification of the caller's token. -/
inductive PrivilegeLevel
  | NotPrivileged
  | HighIntegrityAdmin
  | Elevated
deriving DecidableEq, Repr

/-- Provenance of a token, as produced by the token operations the front-end
uses: `Token::with_current_process`, `Token::as_medium_integrity_safer_token`
(derivation from a parent token), and `Token::with_shell_process`. -/
inductive TokenKind
  | currentProcess
  | mediumSaferFrom (parent : TokenKind)
  | shellProcess
deriving DecidableEq, Repr

/-- True exactly for tokens produced by `as_medium_integrity_safer_token`,
i.e. medium-integrity tokens derived from some parent token. -/
def TokenKind.isMediumSaferDerived : TokenKind → Bool
  | .mediumSaferFrom _ => true
  | _ => false

/-- A child process, abstracted to its exit code (`Process::exit_code`). -/
structure Process where
  exitCode : Nat
deriving DecidableEq, Repr

/-- `BridgePtyClient::run` (bridge.rs:47-50): wait for the target process and
return its exit code; the bridge child exits with this code. -/
def BridgePtyClient.run (proc : Process) : Nat :=
  proc.exitCode

/-- The originator state (`BridgeServer`, bridge.rs:66-82).  Pipe handles are
modelled by the strings naming them: server pipe paths for the five relay
pipes, and the device names for the console handles `conin`/`conout`. -/
structure BridgeServer where
  stdin_is_pty : Bool
  stdout_is_pty : Bool
  stderr_is_pty : Bool
  stdin : Option String
  stdout : Option String
  stderr : Option String
  conin : Option String
  conin_pipe : Option String
  conout : Option String
  conout_pipe : Option String
  input_mode : Option Nat
  output_mode : Option Nat
deriving DecidableEq, Repr

/-- `BridgeServer::new` (bridge.rs:133-152): records whether each standard
stream is a console (character) stream; all other fields start as `None`. -/
def BridgeServer.new (stdinIsPty stdoutIsPty stderrIsPty : Bool) : BridgeServer :=
  { stdin_is_pty := stdinIsPty
    stdout_is_pty := stdoutIsPty
    stderr_is_pty := stderrIsPty
    stdin := none
    stdout := none
    stderr := none
    conin := none
    conin_pipe := none
    conout := none
    conout_pipe := none
    input_mode := none
    output_mode := none }

/-- `CONSOLE_SCREEN_BUFFER_INFO`, restricted to the fields `start` reads:
the window rectangle `srWindow` and the cursor position `dwCursorPosition`.
All fields are Windows `SHORT` (i16) values, modelled as integers. -/
structure ConsoleScreenBufferInfo where
  srWindowLeft : Int
  srWindowTop : Int
  srWindowRight : Int
  srWindowBottom : Int
  cursorX : Int
  cursorY : Int
deriving DecidableEq, Repr

/-- Rust `i16::saturating_sub`: subtraction clamped to the i16 range. -/
def satSubI16 (a b : Int) : Int :=
  max (-32768) (min 32767 (a - b))

/-- Rust `as usize` on an i16 value: two's-complement reinterpretation into
the unsigned 64-bit range. -/
def i16AsUsize (x : Int) : Nat :=
  (x % 2 ^ 64).toNat

/-- Viewport width computed by `start` (bridge.rs:216-220):
`srWindow.Right.saturating_sub(srWindow.Left) as usize + 1`. -/
def viewportWidth (info : ConsoleScreenBufferInfo) : Nat :=
  i16AsUsize (satSubI16 info.srWindowRight info.srWindowLeft) + 1

/-- Viewport height computed by `start` (bridge.rs:225-229):
`srWindow.Bottom.saturating_sub(srWindow.Top) as usize + 1`. -/
def viewportHeight (info : ConsoleScreenBufferInfo) : Nat :=
  i16AsUsize (satSubI16 info.srWindowBottom info.srWindowTop) + 1

/-- Cursor column argument (bridge.rs:234): `dwCursorPosition.X as usize`. -/
def cursorXArg (info : ConsoleScreenBufferInfo) : Nat :=
  i16AsUsize info.cursorX

/-- Cursor row argument (bridge.rs:235-238):
`dwCursorPosition.Y.saturating_sub(srWindow.Top) as usize`. -/
def cursorYArg (info : ConsoleScreenBufferInfo) : Nat :=
  i16AsUsize (satSubI16 info.cursorY info.srWindowTop)

/-- Outcomes of the fallible Windows calls `BridgeServer::start` performs,
plus the supply of fresh pipe paths the OS hands out.  The `k`-th call to
`NamedPipeServer::for_token` yields the fresh path `supply k` when
`forTokenOk k` holds and fails otherwise. -/
structure StartEnv where
  supply : Nat → String
  forTokenOk : Nat → Bool
  coninOpens : Bool
  coninModeRes : Except String Nat
  setConinModeOk : Bool
  conoutOpens : Bool
  conoutModeRes : Except String Nat
  screenInfoRes : Except String ConsoleScreenBufferInfo
  setConoutModeOk : Bool

/-- `NamedPipeServer::for_token`: create a server pipe whose ACL is scoped to
the target token; yields the pipe path, or the failing API name. -/
def NamedPipeServer.forToken (env : StartEnv) (k : Nat) : Except String String :=
  if env.forTokenOk k then .ok (env.supply k) else .error "CreateNamedPipeW"

/-- The `stdin` block of `start` (bridge.rs:159-164): when stdin is not a
console stream, create a server pipe, store it, and push `--stdin <path>`. -/
def stdinStep (env : StartEnv) :
    BridgeServer × List String × Nat → Except String (BridgeServer × List String × Nat)
  | (s, args, k) =>
    if s.stdin_is_pty then .ok (s, args, k)
    else
      match NamedPipeServer.forToken env k with
      | .error e => .error e
      | .ok path => .ok ({ s with stdin := some path }, args ++ ["--stdin", path], k + 1)

/-- The `stdout` block of `start` (bridge.rs:166-171). -/
def stdoutStep (env : StartEnv) :
    BridgeServer × List String × Nat → Except String (BridgeServer × List String × Nat)
  | (s, args, k) =>
    if s.stdout_is_pty then .ok (s, args, k)
    else
      match NamedPipeServer.forToken env k with
      | .error e => .error e
      | .ok path => .ok ({ s with stdout := some path }, args ++ ["--stdout", path], k + 1)

/-- The `stderr` block of `start` (bridge.rs:173-178). -/
def stderrStep (env : StartEnv) :
    BridgeServer × List String × Nat → Except String (BridgeServer × List String × Nat)
  | (s, args, k) =>
    if s.stderr_is_pty then .ok (s, args, k)
    else
      match NamedPipeServer.forToken env k with
      | .error e => .error e
      | .ok path => .ok ({ s with stderr := some path }, args ++ ["--stderr", path], k + 1)

/-- The `conin` block of `start` (bridge.rs:180-194): if `CONIN$` opens,
snapshot the input console mode, create a server pipe, push `--conin <path>`,
enable virtual-terminal input, and store the console handle. -/
def coninStep (env : StartEnv) :
    BridgeServer × List String × Nat → Except String (BridgeServer × List String × Nat)
  | (s, args, k) =>
    if env.coninOpens then
      match env.coninModeRes with
      | .error e => .error e
      | .ok mode =>
        match NamedPipeServer.forToken env k with
        | .error e => .error e
        | .ok path =>
          if env.setConinModeOk then
            .ok
              ({ s with
                  input_mode := some mode
                  conin_pipe := some path
                  conin := some "CONIN$" },
                args ++ ["--conin", path], k + 1)
          else .error "SetConsoleMode"
    else .ok (s, args, k)

/-- The `conout` block of `start` (bridge.rs:196-255): if `CONOUT$` opens,
snapshot the output console mode, create a server pipe, push
`--conout <path>`, query the screen buffer, push the viewport geometry and
cursor arguments, set the VT output modes, and store the console handle. -/
def conoutStep (env : StartEnv) :
    BridgeServer × List String × Nat → Except String (BridgeServer × List String × Nat)
  | (s, args, k) =>
    if env.conoutOpens then
      match env.conoutModeRes with
      | .error e => .error e
      | .ok mode =>
        match NamedPipeServer.forToken env k with
        | .error e => .error e
        | .ok path =>
          match env.screenInfoRes with
          | .error e => .error e
          | .ok info =>
            if env.setConoutModeOk then
              .ok
                ({ s with
                    output_mode := some mode
                    conout_pipe := some path
                    conout := some "CONOUT$" },
                  args ++ ["--conout", path] ++
                    ["--width", toString (viewportWidth info),
                     "--height", toString (viewportHeight info),
                     "--cursor-x", toString (cursorXArg info),
                     "--cursor-y", toString (cursorYArg info)], k + 1)
            else .error "SetConsoleMode"
    else .ok (s, args, k)

/-- `BridgeServer::start` (bridge.rs:156-258): run the five blocks in program
order, accumulating the bridge argument vector from an empty `args`. -/
def BridgeServer.start (env : StartEnv) (s : BridgeServer) :
    Except String (BridgeServer × List String) :=
  match stdinStep env (s, [], 0) with
  | .error e => .error e
  | .ok st1 =>
    match stdoutStep env st1 with
    | .error e => .error e
    | .ok st2 =>
      match stderrStep env st2 with
      | .error e => .error e
      | .ok st3 =>
        match coninStep env st3 with
        | .error e => .error e
        | .ok st4 =>
          match conoutStep env st4 with
          | .error e => .error e
          | .ok (s5, args5, _) => .ok (s5, args5)

/-- The flag/value pairs of a bridge argument vector.  `start` pushes
arguments strictly in flag/value pairs, so pairing adjacent elements
recovers every flag with its value. -/
def argPairs : List String → List (String × String)
  | f :: v :: rest => (f, v) :: argPairs rest
  | _ => []

/-- The values carried by a given flag in a bridge argument vector. -/
def argsFor (flag : String) (args : List String) : List String :=
  ((argPairs args).filter (fun fv => fv.1 == flag)).map (fun fv => fv.2)

/-- The five relay directions of the originator. -/
inductive Relay
  | stdin
  | stdout
  | stderr
  | conin
  | conout
deriving DecidableEq, Repr

/-- Observable actions of the originator main thread during `serve`, in
program order.  `waitClient path ok` is a completed
`wait_for_pipe_client` call on the server pipe `path` (`ok` is its result);
`relayStart r path` spawns the relay thread for direction `r` over pipe
`path`; `childWait` is the `proc.wait_for(None)` call on the bridge child;
`joinRelay r timeout` joins the relay thread for `r`, where `none` is an
unbounded `JoinHandle::join` and `some d` a `join_with_timeout` bounded by
`d` milliseconds. -/
inductive Event
  | waitClient (path : String) (ok : Bool)
  | relayStart (r : Relay) (path : String)
  | childWait
  | joinRelay (r : Relay) (timeout : Option Nat)
deriving DecidableEq, Repr

/-- Result of `serve`: the exit code of the bridge child, an error, or a
panic (an `unwrap` on `None`). -/
inductive SOutcome
  | panicked
  | err (msg : String)
  | ok (code : Nat)
deriving DecidableEq, Repr

/-- Outcomes of the fallible calls `serve` performs: the result of
`wait_for_pipe_client` on each relay pipe, of `proc.wait_for(None)` on the
bridge child, and of `proc.exit_code()`. -/
structure ServeEnv where
  waitOk : Relay → Bool
  childWaitOk : Bool
  exitCodeRes : Except String Nat

/-- The `conin` block of `serve` (bridge.rs:261-265): unwrap the conin server
pipe, wait for its client (aborting `serve` on failure via `?`), then spawn
the conin relay thread. -/
def coninStage (env : ServeEnv) (s : BridgeServer) : List Event × Option SOutcome :=
  match s.conin with
  | none => ([], none)
  | some _ =>
    match s.conin_pipe with
    | none => ([], some .panicked)
    | some p =>
      if env.waitOk .conin then ([.waitClient p true, .relayStart .conin p], none)
      else ([.waitClient p false], some (.err "wait_for_pipe_client"))

/-- The `conout` block of `serve` (bridge.rs:267-271): unwrap the conout
server pipe, wait for its client with the result discarded (`let _ =`), and
spawn the conout relay thread regardless. -/
def conoutStage (env : ServeEnv) (s : BridgeServer) : List Event × Option SOutcome :=
  match s.conout with
  | none => ([], none)
  | some _ =>
    match s.conout_pipe with
    | none => ([], some .panicked)
    | some p => ([.waitClient p (env.waitOk .conout), .relayStart .conout p], none)

/-- The `stdin` block of `serve` (bridge.rs:273-279): wait for the stdin
pipe's client (aborting `serve` on failure via `?`), then spawn the stdin
relay thread. -/
def stdinStage (env : ServeEnv) (s : BridgeServer) : List Event × Option SOutcome :=
  match s.stdin with
  | none => ([], none)
  | some p =>
    if env.waitOk .stdin then ([.waitClient p true, .relayStart .stdin p], none)
    else ([.waitClient p false], some (.err "wait_for_pipe_client"))

/-- The `stdout` block of `serve` (bridge.rs:281-287): wait for the stdout
pipe's client with the result discarded, and spawn the relay regardless. -/
def stdoutStage (env : ServeEnv) (s : BridgeServer) : List Event × Option SOutcome :=
  match s.stdout with
  | none => ([], none)
  | some p => ([.waitClient p (env.waitOk .stdout), .relayStart .stdout p], none)

/-- The `stderr` block of `serve` (bridge.rs:288-294): wait for the stderr
pipe's client with the result discarded, and spawn the relay regardless. -/
def stderrStage (env : ServeEnv) (s : BridgeServer) : List Event × Option SOutcome :=
  match s.stderr with
  | none => ([], none)
  | some p => ([.waitClient p (env.waitOk .stderr), .relayStart .stderr p], none)

/-- The joins `serve` performs after the child exits (bridge.rs:298-300):
`stdout_thread.map(|t| t.join())`, then stderr, then conout — each an
unbounded `JoinHandle::join` (timeout `none`); the stdin and conin relay
threads are not joined. -/
def joinEvents (s : BridgeServer) : List Event :=
  (match s.stdout with
    | some _ => [.joinRelay .stdout none]
    | none => []) ++
  (match s.stderr with
    | some _ => [.joinRelay .stderr none]
    | none => []) ++
  (match s.conout with
    | some _ => [.joinRelay .conout none]
    | none => [])

/-- The tail of `serve` (bridge.rs:296-303): wait for the bridge child
(aborting on failure via `?`), join the output relay threads, then fetch the
child's exit code. -/
def serveTail (env : ServeEnv) (s : BridgeServer) : List Event × SOutcome :=
  if env.childWaitOk then
    match env.exitCodeRes with
    | .ok c => ([.childWait] ++ joinEvents s, .ok c)
    | .error e => ([.childWait] ++ joinEvents s, .err e)
  else ([.childWait], .err "WaitForSingleObject")

/-- `BridgeServer::serve` (bridge.rs:260-304): run the five relay blocks and
the wait/join/exit-code tail in program order, returning the event trace of
the main thread together with the outcome. -/
def BridgeServer.serve (env : ServeEnv) (s : BridgeServer) : List Event × SOutcome :=
  match coninStage env s with
  | (t1, some o) => (t1, o)
  | (t1, none) =>
    match conoutStage env s with
    | (t2, some o) => (t1 ++ t2, o)
    | (t2, none) =>
      match stdinStage env s with
      | (t3, some o) => (t1 ++ t2 ++ t3, o)
      | (t3, none) =>
        let t4 := (stdoutStage env s).1
        let t5 := (stderrStage env s).1
        let (t6, o) := serveTail env s
        (t1 ++ t2 ++ t3 ++ t4 ++ t5 ++ t6, o)

/-- Console actions of the `Drop` handler: writing bytes to a console device,
or restoring a console mode on it. -/
inductive DropAction
  | write (dev : String) (bytes : String)
  | setMode (dev : String) (mode : Nat)
deriving DecidableEq, Repr

/-- Whether the console devices can be reopened at drop time
(`PipeHandle::open_pipe("CONOUT$")` / `("CONIN$")` in the Drop handler). -/
structure DropEnv where
  conoutOpens : Bool
  coninOpens : Bool

/-- `impl Drop for BridgeServer` (bridge.rs:84-100), which Rust runs when the
originator's `BridgeServer` goes out of scope on any exit path: if an output
console mode was snapshotted and `CONOUT$` reopens, emit the soft terminal
reset `ESC [ ! p` and restore the saved output mode; if an input mode was
snapshotted and `CONIN$` reopens, restore the saved input mode. -/
def BridgeServer.dropActions (env : DropEnv) (s : BridgeServer) : List DropAction :=
  (match s.output_mode with
    | some mode =>
      if env.conoutOpens then [.write "CONOUT$" "\x1b[!p", .setMode "CONOUT$" mode] else []
    | none => []) ++
  (match s.input_mode with
    | some mode =>
      if env.coninOpens then [.setMode "CONIN$" mode] else []
    | none => [])

/-- How the front-end launched a child, if it launched one: a direct spawn of
the target under a configured token, or a `ShellExecute("runas", ...)` launch
of the bridge child (whose pipes are ACL-scoped to the given token). -/
inductive SpawnKind
  | direct (tok : TokenKind) (argv : List String)
  | runasBridge (tok : TokenKind) (bridgeArgv : List String)
deriving DecidableEq, Repr

/-- The front-end process's final exit: `std::process::exit(code)`, an error
returned from `main` (the Rust runtime then exits non-zero), or a panic. -/
inductive MainExit
  | code (c : Nat)
  | errExit (msg : String)
  | panicExit
deriving DecidableEq, Repr

/-- Observable result of running the `eledo` front-end: the diagnostics it
printed to stderr, the child launch it performed (if any), and its exit. -/
structure MainOutcome where
  diagnostics : List String
  spawned : Option SpawnKind
  exit : MainExit
deriving DecidableEq, Repr

def isDirectSpawn : Option SpawnKind → Bool
  | some (.direct _ _) => true
  | _ => false

def isBridgeSpawn : Option SpawnKind → Bool
  | some (.runasBridge _ _) => true
  | _ => false

def spawnToken : Option SpawnKind → Option TokenKind
  | some (.direct t _) => some t
  | some (.runasBridge t _) => some t
  | none => none

/-- The environment of one `eledo` invocation: the caller's classified
privilege level, the raw argument list (`args_os().skip(1)`), the `PATH`
lookup, the outcomes of the fallible calls `main` performs, and the
environments for the bridged path's `start` and `serve`. -/
structure EledoEnv where
  level : PrivilegeLevel
  rawArgs : List String
  findInPath : String → Option String
  tokenOk : Bool
  envBlockOk : Bool
  spawnOk : Bool
  directExitRes : Except String Nat
  stdinIsPty : Bool
  stdoutIsPty : Bool
  stderrIsPty : Bool
  startEnv : StartEnv
  bridgeFound : Bool
  bridgePath : String
  shellExecOk : Bool
  serveEnv : ServeEnv

/-- The token selection of `eledo.rs` lines 24-29: `NotPrivileged` and
`HighIntegrityAdmin` callers get `token.as_medium_integrity_safer_token()`;
an `Elevated` caller gets `Token::with_shell_process()`. -/
def targetTokenFor (level : PrivilegeLevel) : TokenKind :=
  match level with
  | .NotPrivileged | .HighIntegrityAdmin => .mediumSaferFrom .currentProcess
  | .Elevated => .shellProcess

/-- Modelled from the spec: `BridgeServer::start_for_command` is called by
the front-end (eledo.rs:44) but its body is not among the provided sources.
Per the spec (sections 4.6.2, 4.6.3, 6.1, 6.3) it runs `start` to create the
server pipes and bridge flags, locates the bridge executable (a fatal error
when missing), and yields the bridge command's argv: the bridge executable,
the bridge flags, the `--` separator, then the target command's argv. -/
def startForCommand (env : StartEnv) (bridgeFound : Bool) (bridgePath : String)
    (argv : List String) (s : BridgeServer) :
    Except String (BridgeServer × List String) :=
  match BridgeServer.start env s with
  | .error e => .error e
  | .ok (s1, args) =>
    if bridgeFound then .ok (s1, bridgePath :: args ++ ["--"] ++ argv)
    else .error "pty bridge not found"

/-- The `eledo` front-end `main` (eledo.rs:5-51): classify the caller, check
the argument list, resolve the command on `PATH`, select the target token,
then either spawn directly (privileged caller) and exit with the child's
exit code, or start the bridge server, launch the bridge child via
`ShellExecute("runas")`, serve the relays, and exit with the code `serve`
returned. -/
def eledoMain (env : EledoEnv) : MainOutcome :=
  if env.tokenOk then
    match env.rawArgs with
    | [] =>
      { diagnostics := ["USAGE: eledo COMMAND [ARGS]...",
          "No command or arguments were specified"]
        spawned := none
        exit := .code 1 }
    | cmd :: rest =>
      match env.findInPath cmd with
      | none =>
        { diagnostics := ["Unable to find " ++ cmd ++ " in path"]
          spawned := none
          exit := .code 1 }
      | some path =>
        let argv := path :: rest
        let target_token := targetTokenFor env.level
        if env.envBlockOk then
          match env.level with
          | .Elevated | .HighIntegrityAdmin =>
            if env.spawnOk then
              match env.directExitRes with
              | .ok c =>
                { diagnostics := []
                  spawned := some (.direct target_token argv)
                  exit := .code c }
              | .error e =>
                { diagnostics := []
                  spawned := some (.direct target_token argv)
                  exit := .errExit e }
            else { diagnostics := [], spawned := none, exit := .errExit "CreateProcessW" }
          | .NotPrivileged =>
            match startForCommand env.startEnv env.bridgeFound env.bridgePath argv
                (BridgeServer.new env.stdinIsPty env.stdoutIsPty env.stderrIsPty) with
            | .error e => { diagnostics := [], spawned := none, exit := .errExit e }
            | .ok (server, bridgeArgv) =>
              if env.shellExecOk then
                match (BridgeServer.serve env.serveEnv server).2 with
                | .panicked =>
                  { diagnostics := []
                    spawned := some (.runasBridge target_token bridgeArgv)
                    exit := .panicExit }
                | .err e =>
                  { diagnostics := []
                    spawned := some (.runasBridge target_token bridgeArgv)
                    exit := .errExit e }
                | .ok c =>
                  { diagnostics := []
                    spawned := some (.runasBridge target_token bridgeArgv)
                    exit := .code c }
              else { diagnostics := [], spawned := none, exit := .errExit "ShellExecuteExW" }
        else { diagnostics := [], spawned := none, exit := .errExit "CreateEnvironmentBlock" }
  else { diagnostics := [], spawned := none, exit := .errExit "OpenProcessToken" }

lemma mem_of_getElem_eq {α : Type} {l : List α} {n : Nat} {a : α}
    (h : l[n]? = some a) : a ∈ l := by
  obtain ⟨hn, rfl⟩ := List.getElem?_eq_some.mp h
  exact List.getElem_mem hn

/-- The ordering property of the relay handshake over an event trace: every
relay start on a pipe is preceded by a completed client wait on that pipe. -/
def WaitBeforeRelay (tr : List Event) : Prop :=
  ∀ (i : Nat) (r : Relay) (p : String), tr[i]? = some (Event.relayStart r p) →
    ∃ j : Nat, j < i ∧ ∃ ok : Bool, tr[j]? = some (Event.waitClient p ok)

lemma waitBeforeRelay_append {xs ys : List Event}
    (hx : WaitBeforeRelay xs) (hy : WaitBeforeRelay ys) :
    WaitBeforeRelay (xs ++ ys) := by
  intro i r p h
  by_cases hi : i < xs.length
  · rw [List.getElem?_append_left hi] at h
    obtain ⟨j, hj, ok, hw⟩ := hx i r p h
    exact ⟨j, hj, ok, by rw [List.getElem?_append_left (lt_trans hj hi)]; exact hw⟩
  · push_neg at hi
    rw [List.getElem?_append_right hi] at h
    obtain ⟨j, hj, ok, hw⟩ := hy (i - xs.length) r p h
    refine ⟨xs.length + j, by omega, ok, ?_⟩
    rw [List.getElem?_append_right (by omega), show xs.length + j - xs.length = j by omega]
    exact hw

lemma waitBeforeRelay_nil : WaitBeforeRelay [] := by
  intro i r p h
  simp at h

lemma waitBeforeRelay_pair (p : String) (ok : Bool) (r : Relay) :
    WaitBeforeRelay [Event.waitClient p ok, Event.relayStart r p] := by
  intro i r' p' h
  match i with
  | 0 => simp at h
  | 1 =>
    simp at h
    exact ⟨0, by omega, ok, by simp [h.2]⟩
  | n + 2 => simp at h

lemma waitBeforeRelay_single_wait (p : String) (ok : Bool) :
    WaitBeforeRelay [Event.waitClient p ok] := by
  intro i r' p' h
  match i with
  | 0 => simp at h
  | n + 1 => simp at h

lemma waitBeforeRelay_of_no_relay {tr : List Event}
    (h : ∀ r p, Event.relayStart r p ∉ tr) : WaitBeforeRelay tr := by
  intro i r p hi
  exact absurd (mem_of_getElem_eq hi) (h r p)

lemma coninStage_wbr (env : ServeEnv) (s : BridgeServer) :
    WaitBeforeRelay (coninStage env s).1 := by
  unfold coninStage
  cases s.conin with
  | none => exact waitBeforeRelay_nil
  | some c =>
    cases s.conin_pipe with
    | none => exact waitBeforeRelay_nil
    | some p =>
      by_cases h : env.waitOk .conin = true
      · simp only [h, if_true]
        exact waitBeforeRelay_pair p true .conin
      · simp only [eq_false_of_ne_true h, Bool.false_eq_true, if_false]
        exact waitBeforeRelay_single_wait p false

lemma conoutStage_wbr (env : ServeEnv) (s : BridgeServer) :
    WaitBeforeRelay (conoutStage env s).1 := by
  unfold conoutStage
  cases s.conout with
  | none => exact waitBeforeRelay_nil
  | some c =>
    cases s.conout_pipe with
    | none => exact waitBeforeRelay_nil
    | some p => exact waitBeforeRelay_pair p (env.waitOk .conout) .conout

lemma stdinStage_wbr (env : ServeEnv) (s : BridgeServer) :
    WaitBeforeRelay (stdinStage env s).1 := by
  unfold stdinStage
  cases s.stdin with
  | none => exact waitBeforeRelay_nil
  | some p =>
    by_cases h : env.waitOk .stdin = true
    · simp only [h, if_true]
      exact waitBeforeRelay_pair p true .stdin
    · simp only [eq_false_of_ne_true h, Bool.false_eq_true, if_false]
      exact waitBeforeRelay_single_wait p false

lemma stdoutStage_wbr (env : ServeEnv) (s : BridgeServer) :
    WaitBeforeRelay (stdoutStage env s).1 := by
  unfold stdoutStage
  cases s.stdout with
  | none => exact waitBeforeRelay_nil
  | some p => exact waitBeforeRelay_pair p (env.waitOk .stdout) .stdout

lemma stderrStage_wbr (env : ServeEnv) (s : BridgeServer) :
    WaitBeforeRelay (stderrStage env s).1 := by
  unfold stderrStage
  cases s.stderr with
  | none => exact waitBeforeRelay_nil
  | some p => exact waitBeforeRelay_pair p (env.waitOk .stderr) .stderr

lemma serveTail_no_relay (env : ServeEnv) (s : BridgeServer) :
    ∀ r p, Event.relayStart r p ∉ (serveTail env s).1 := by
  intro r p
  unfold serveTail joinEvents
  by_cases h : env.childWaitOk = true <;>
    cases s.stdout <;> cases s.stderr <;> cases s.conout <;>
    simp [h, eq_false_of_ne_true] <;>
    cases env.exitCodeRes <;> simp

lemma serveTail_wbr (env : ServeEnv) (s : BridgeServer) :
    WaitBeforeRelay (serveTail env s).1 :=
  waitBeforeRelay_of_no_relay (serveTail_no_relay env s)

lemma serve_snd (env : ServeEnv) (s : BridgeServer) :
    (BridgeServer.serve env s).2 =
      match (coninStage env s).2 with
      | some o => o
      | none =>
        match (conoutStage env s).2 with
        | some o => o
        | none =>
          match (stdinStage env s).2 with
          | some o => o
          | none => (serveTail env s).2 := by
  unfold BridgeServer.serve
  rcases coninStage env s with ⟨t1, _ | o1⟩ <;>
    rcases conoutStage env s with ⟨t2, _ | o2⟩ <;>
    rcases stdinStage env s with ⟨t3, _ | o3⟩ <;>
    rcases serveTail env s with ⟨t6, o6⟩ <;> rfl

lemma coninStage_snd_ne_panic (env : ServeEnv) (s : BridgeServer)
    (h1 : s.conin.isSome → s.conin_pipe.isSome) :
    (coninStage env s).2 ≠ some SOutcome.panicked := by
  unfold coninStage
  rcases hci : s.conin with _ | ci <;> rcases hcip : s.conin_pipe with _ | cip <;>
    by_cases hw : env.waitOk Relay.conin = true <;> simp_all

lemma conoutStage_snd_ne_panic (env : ServeEnv) (s : BridgeServer)
    (h2 : s.conout.isSome → s.conout_pipe.isSome) :
    (conoutStage env s).2 ≠ some SOutcome.panicked := by
  unfold conoutStage
  rcases hco : s.conout with _ | co <;> rcases hcop : s.conout_pipe with _ | cop <;> simp_all

lemma stdinStage_snd_ne_panic (env : ServeEnv) (s : BridgeServer) :
    (stdinStage env s).2 ≠ some SOutcome.panicked := by
  unfold stdinStage
  rcases hsi : s.stdin with _ | si <;> by_cases hw : env.waitOk Relay.stdin = true <;> simp_all

lemma serveTail_snd_ne_panic (env : ServeEnv) (s : BridgeServer) :
    (serveTail env s).2 ≠ SOutcome.panicked := by
  unfold serveTail
  by_cases hcw : env.childWaitOk = true <;> rcases env.exitCodeRes with e | c <;> simp_all

/-- With the pipe-pairing invariant, `serve` never reaches either `unwrap`
on a `None` pipe: no execution panics. -/
lemma serve_not_panicked (env : ServeEnv) (s : BridgeServer)
    (h1 : s.conin.isSome → s.conin_pipe.isSome)
    (h2 : s.conout.isSome → s.conout_pipe.isSome) :
    (BridgeServer.serve env s).2 ≠ SOutcome.panicked := by
  rw [serve_snd]
  rcases hA : (coninStage env s).2 with _ | oA
  · rcases hB : (conoutStage env s).2 with _ | oB
    · rcases hC : (stdinStage env s).2 with _ | oC
      · exact serveTail_snd_ne_panic env s
      · have := stdinStage_snd_ne_panic env s
        rw [hC] at this
        simpa using this
    · have := conoutStage_snd_ne_panic env s h2
      rw [hB] at this
      simpa using this
  · have := coninStage_snd_ne_panic env s h1
    rw [hA] at this
    simpa using this

lemma coninStage_snd_none (env : ServeEnv) (s : BridgeServer)
    (h1 : s.conin.isSome → s.conin_pipe.isSome) (hw : env.waitOk Relay.conin = true) :
    (coninStage env s).2 = none := by
  unfold coninStage
  rcases hci : s.conin with _ | ci <;> rcases hcip : s.conin_pipe with _ | cip <;> simp_all

lemma conoutStage_snd_none (env : ServeEnv) (s : BridgeServer)
    (h2 : s.conout.isSome → s.conout_pipe.isSome) :
    (conoutStage env s).2 = none := by
  unfold conoutStage
  rcases hco : s.conout with _ | co <;> rcases hcop : s.conout_pipe with _ | cop <;> simp_all

lemma stdinStage_snd_none (env : ServeEnv) (s : BridgeServer)
    (hw : env.waitOk Relay.stdin = true) :
    (stdinStage env s).2 = none := by
  unfold stdinStage
  rcases hsi : s.stdin with _ | si <;> simp_all

lemma serveTail_snd_ok (env : ServeEnv) (s : BridgeServer) (c : Nat)
    (hcw : env.childWaitOk = true) (hec : env.exitCodeRes = .ok c) :
    (serveTail env s).2 = SOutcome.ok c := by
  unfold serveTail
  simp [hcw, hec]

/-- When every client connects, the child wait succeeds, and the exit code
query returns `c`, `serve` returns `c` (given the pipe-pairing invariant). -/
lemma serve_snd_ok (env : ServeEnv) (s : BridgeServer) (c : Nat)
    (h1 : s.conin.isSome → s.conin_pipe.isSome)
    (h2 : s.conout.isSome → s.conout_pipe.isSome)
    (hw : ∀ r, env.waitOk r = true)
    (hcw : env.childWaitOk = true) (hec : env.exitCodeRes = .ok c) :
    (BridgeServer.serve env s).2 = SOutcome.ok c := by
  rw [serve_snd, coninStage_snd_none env s h1 (hw Relay.conin),
    conoutStage_snd_none env s h2, stdinStage_snd_none env s (hw Relay.stdin)]
  exact serveTail_snd_ok env s c hcw hec

lemma coninStage_no_childWait (env : ServeEnv) (s : BridgeServer) :
    Event.childWait ∉ (coninStage env s).1 := by
  unfold coninStage
  rcases hci : s.conin with _ | ci <;> rcases hcip : s.conin_pipe with _ | cip <;>
    by_cases hw : env.waitOk Relay.conin = true <;> simp_all

lemma conoutStage_no_childWait (env : ServeEnv) (s : BridgeServer) :
    Event.childWait ∉ (conoutStage env s).1 := by
  unfold conoutStage
  rcases hco : s.conout with _ | co <;> rcases hcop : s.conout_pipe with _ | cop <;> simp_all

lemma stdinStage_no_childWait (env : ServeEnv) (s : BridgeServer) :
    Event.childWait ∉ (stdinStage env s).1 := by
  unfold stdinStage
  rcases hsi : s.stdin with _ | si <;> by_cases hw : env.waitOk Relay.stdin = true <;> simp_all

lemma serve_eq_of_stdin_abort (env : ServeEnv) (s : BridgeServer) (o : SOutcome)
    (hA : (coninStage env s).2 = none) (hB : (conoutStage env s).2 = none)
    (hC : (stdinStage env s).2 = some o) :
    BridgeServer.serve env s =
      ((coninStage env s).1 ++ (conoutStage env s).1 ++ (stdinStage env s).1, o) := by
  unfold BridgeServer.serve
  rcases h1 : coninStage env s with ⟨t1, r1⟩
  rw [h1] at hA
  simp only at hA
  subst hA
  rcases h2 : conoutStage env s with ⟨t2, r2⟩
  rw [h2] at hB
  simp only at hB
  subst hB
  rcases h3 : stdinStage env s with ⟨t3, r3⟩
  rw [h3] at hC
  simp only at hC
  subst hC
  rfl

lemma serve_fst_prefix2 (env : ServeEnv) (s : BridgeServer)
    (hA : (coninStage env s).2 = none) (hB : (conoutStage env s).2 = none) :
    ∃ rest : List Event,
      (BridgeServer.serve env s).1 =
        (coninStage env s).1 ++ (conoutStage env s).1 ++ rest := by
  unfold BridgeServer.serve
  rcases h1 : coninStage env s with ⟨t1, r1⟩
  rw [h1] at hA
  simp only at hA
  subst hA
  rcases h2 : conoutStage env s with ⟨t2, r2⟩
  rw [h2] at hB
  simp only at hB
  subst hB
  rcases h3 : stdinStage env s with ⟨t3, r3⟩
  cases r3 with
  | some o => exact ⟨t3, rfl⟩
  | none =>
    rcases h6 : serveTail env s with ⟨t6, o6⟩
    refine ⟨t3 ++ (stdoutStage env s).1 ++ (stderrStage env s).1 ++ t6, ?_⟩
    simp [List.append_assoc]

lemma serve_fst_full (env : ServeEnv) (s : BridgeServer)
    (hA : (coninStage env s).2 = none) (hB : (conoutStage env s).2 = none)
    (hC : (stdinStage env s).2 = none) :
    (BridgeServer.serve env s).1 =
      (coninStage env s).1 ++ (conoutStage env s).1 ++ (stdinStage env s).1 ++
        (stdoutStage env s).1 ++ (stderrStage env s).1 ++ (serveTail env s).1 := by
  unfold BridgeServer.serve
  rcases h1 : coninStage env s with ⟨t1, r1⟩
  rw [h1] at hA
  simp only at hA
  subst hA
  rcases h2 : conoutStage env s with ⟨t2, r2⟩
  rw [h2] at hB
  simp only at hB
  subst hB
  rcases h3 : stdinStage env s with ⟨t3, r3⟩
  rw [h3] at hC
  simp only at hC
  subst hC
  rcases h6 : serveTail env s with ⟨t6, o6⟩
  rfl

lemma stdinStep_ok {env : StartEnv} {s : BridgeServer} {args : List String} {k : Nat}
    {s1 : BridgeServer} {args1 : List String} {k1 : Nat}
    (h : stdinStep env (s, args, k) = .ok (s1, args1, k1)) :
    (s.stdin_is_pty = true ∧ s1 = s ∧ args1 = args ∧ k1 = k) ∨
    (s.stdin_is_pty = false ∧ env.forTokenOk k = true ∧
      s1 = { s with stdin := some (env.supply k) } ∧
      args1 = args ++ ["--stdin", env.supply k] ∧ k1 = k + 1) := by
  unfold stdinStep NamedPipeServer.forToken at h
  by_cases hp : s.stdin_is_pty = true <;>
    by_cases hf : env.forTokenOk k = true <;>
    simp_all

lemma stdoutStep_ok {env : StartEnv} {s : BridgeServer} {args : List String} {k : Nat}
    {s1 : BridgeServer} {args1 : List String} {k1 : Nat}
    (h : stdoutStep env (s, args, k) = .ok (s1, args1, k1)) :
    (s.stdout_is_pty = true ∧ s1 = s ∧ args1 = args ∧ k1 = k) ∨
    (s.stdout_is_pty = false ∧ env.forTokenOk k = true ∧
      s1 = { s with stdout := some (env.supply k) } ∧
      args1 = args ++ ["--stdout", env.supply k] ∧ k1 = k + 1) := by
  unfold stdoutStep NamedPipeServer.forToken at h
  by_cases hp : s.stdout_is_pty = true <;>
    by_cases hf : env.forTokenOk k = true <;>
    simp_all

lemma stderrStep_ok {env : StartEnv} {s : BridgeServer} {args : List String} {k : Nat}
    {s1 : BridgeServer} {args1 : List String} {k1 : Nat}
    (h : stderrStep env (s, args, k) = .ok (s1, args1, k1)) :
    (s.stderr_is_pty = true ∧ s1 = s ∧ args1 = args ∧ k1 = k) ∨
    (s.stderr_is_pty = false ∧ env.forTokenOk k = true ∧
      s1 = { s with stderr := some (env.supply k) } ∧
      args1 = args ++ ["--stderr", env.supply k] ∧ k1 = k + 1) := by
  unfold stderrStep NamedPipeServer.forToken at h
  by_cases hp : s.stderr_is_pty = true <;>
    by_cases hf : env.forTokenOk k = true <;>
    simp_all

lemma coninStep_ok {env : StartEnv} {s : BridgeServer} {args : List String} {k : Nat}
    {s1 : BridgeServer} {args1 : List String} {k1 : Nat}
    (h : coninStep env (s, args, k) = .ok (s1, args1, k1)) :
    (env.coninOpens = false ∧ s1 = s ∧ args1 = args ∧ k1 = k) ∨
    (env.coninOpens = true ∧ env.forTokenOk k = true ∧ env.setConinModeOk = true ∧
      ∃ mode : Nat, env.coninModeRes = .ok mode ∧
        s1 = { s with
            input_mode := some mode
            conin_pipe := some (env.supply k)
            conin := some "CONIN$" } ∧
        args1 = args ++ ["--conin", env.supply k] ∧ k1 = k + 1) := by
  unfold coninStep NamedPipeServer.forToken at h
  by_cases hp : env.coninOpens = true <;>
    rcases hm : env.coninModeRes with e | mode <;>
    by_cases hf : env.forTokenOk k = true <;>
    by_cases hs : env.setConinModeOk = true <;>
    simp_all

lemma conoutStep_ok {env : StartEnv} {s : BridgeServer} {args : List String} {k : Nat}
    {s1 : BridgeServer} {args1 : List String} {k1 : Nat}
    (h : conoutStep env (s, args, k) = .ok (s1, args1, k1)) :
    (env.conoutOpens = false ∧ s1 = s ∧ args1 = args ∧ k1 = k) ∨
    (env.conoutOpens = true ∧ env.forTokenOk k = true ∧ env.setConoutModeOk = true ∧
      ∃ mode : Nat, env.conoutModeRes = .ok mode ∧
      ∃ info : ConsoleScreenBufferInfo, env.screenInfoRes = .ok info ∧
        s1 = { s with
            output_mode := some mode
            conout_pipe := some (env.supply k)
            conout := some "CONOUT$" } ∧
        args1 = args ++ ["--conout", env.supply k] ++
          ["--width", toString (viewportWidth info),
           "--height", toString (viewportHeight info),
           "--cursor-x", toString (cursorXArg info),
           "--cursor-y", toString (cursorYArg info)] ∧ k1 = k + 1) := by
  unfold conoutStep NamedPipeServer.forToken at h
  by_cases hp : env.conoutOpens = true <;>
    rcases hm : env.conoutModeRes with e | mode <;>
    by_cases hf : env.forTokenOk k = true <;>
    rcases hsc : env.screenInfoRes with e2 | info <;>
    by_cases hs : env.setConoutModeOk = true <;>
    simp_all

/-- Master characterization of a successful `start` from a fresh
`BridgeServer`: the flag/value accounting between the returned argument
vector and the pipes recorded in the returned state, the conin/conout pipe
pairing invariant, and the geometry arguments pushed for the console. -/
lemma start_ok_parts {env : StartEnv} {a b c : Bool} {s : BridgeServer} {args : List String}
    (h : BridgeServer.start env (BridgeServer.new a b c) = .ok (s, args)) :
    argsFor "--stdin" args = s.stdin.toList ∧
    argsFor "--stdout" args = s.stdout.toList ∧
    argsFor "--stderr" args = s.stderr.toList ∧
    argsFor "--conin" args = s.conin_pipe.toList ∧
    argsFor "--conout" args = s.conout_pipe.toList ∧
    (s.conin.isSome → s.conin_pipe.isSome) ∧
    (s.conout.isSome → s.conout_pipe.isSome) ∧
    (∀ info : ConsoleScreenBufferInfo,
      env.conoutOpens = true → env.screenInfoRes = .ok info →
      argsFor "--width" args = [toString (viewportWidth info)] ∧
      argsFor "--height" args = [toString (viewportHeight info)] ∧
      argsFor "--cursor-x" args = [toString (cursorXArg info)] ∧
      argsFor "--cursor-y" args = [toString (cursorYArg info)]) := by
  unfold BridgeServer.start at h
  rcases h1 : stdinStep env (BridgeServer.new a b c, [], 0) with e1 | ⟨sA, argsA, kA⟩
  · rw [h1] at h
    simp at h
  rw [h1] at h
  dsimp only at h
  have H1 := stdinStep_ok h1
  rcases h2 : stdoutStep env (sA, argsA, kA) with e2 | ⟨sB, argsB, kB⟩
  · rw [h2] at h
    simp at h
  rw [h2] at h
  dsimp only at h
  have H2 := stdoutStep_ok h2
  rcases h3 : stderrStep env (sB, argsB, kB) with e3 | ⟨sC, argsC, kC⟩
  · rw [h3] at h
    simp at h
  rw [h3] at h
  dsimp only at h
  have H3 := stderrStep_ok h3
  rcases h4 : coninStep env (sC, argsC, kC) with e4 | ⟨sD, argsD, kD⟩
  · rw [h4] at h
    simp at h
  rw [h4] at h
  dsimp only at h
  have H4 := coninStep_ok h4
  rcases h5 : conoutStep env (sD, argsD, kD) with e5 | ⟨sE, argsE, kE⟩
  · rw [h5] at h
    simp at h
  rw [h5] at h
  dsimp only at h
  have H5 := conoutStep_ok h5
  simp only [Except.ok.injEq, Prod.mk.injEq] at h
  obtain ⟨rfl, rfl⟩ := h
  clear h1 h2 h3 h4 h5
  rcases H1 with ⟨hp1, rfl, rfl, rfl⟩ | ⟨hp1, hf1, rfl, rfl, rfl⟩ <;>
    rcases H2 with ⟨hp2, rfl, rfl, rfl⟩ | ⟨hp2, hf2, rfl, rfl, rfl⟩ <;>
    rcases H3 with ⟨hp3, rfl, rfl, rfl⟩ | ⟨hp3, hf3, rfl, rfl, rfl⟩ <;>
    rcases H4 with ⟨ho4, rfl, rfl, rfl⟩ | ⟨ho4, hf4, hs4, mode4, hm4, rfl, rfl, rfl⟩ <;>
    rcases H5 with ⟨ho5, rfl, rfl, rfl⟩ | ⟨ho5, hf5, hs5, mode5, hm5, info5, hsc5, rfl, rfl, rfl⟩ <;>
    simp_all [argsFor, argPairs, BridgeServer.new]

/-- C7: For every server pipe held by the originator, `serve` completes a
`wait_for_pipe_client` call on that pipe before any relay is started on it:
in the event trace of `serve`, every `relayStart` on a pipe is strictly
preceded by a completed `waitClient` on that same pipe, so no relay byte is
copied over a pipe before its client-connect wait has completed. -/
theorem serve_wait_before_relay (env : ServeEnv) (s : BridgeServer) :
    WaitBeforeRelay (BridgeServer.serve env s).1 := by
  have h1 := coninStage_wbr env s
  have h2 := conoutStage_wbr env s
  have h3 := stdinStage_wbr env s
  have h4 := stdoutStage_wbr env s
  have h5 := stderrStage_wbr env s
  have h6 := serveTail_wbr env s
  unfold BridgeServer.serve
  rcases hc1 : coninStage env s with ⟨t1, r1⟩
  rw [hc1] at h1
  cases r1 with
  | some o => exact h1
  | none =>
    rcases hc2 : conoutStage env s with ⟨t2, r2⟩
    rw [hc2] at h2
    cases r2 with
    | some o => exact waitBeforeRelay_append h1 h2
    | none =>
      rcases hc3 : stdinStage env s with ⟨t3, r3⟩
      rw [hc3] at h3
      cases r3 with
      | some o => exact waitBeforeRelay_append (waitBeforeRelay_append h1 h2) h3
      | none =>
        rcases hc6 : serveTail env s with ⟨t6, o6⟩
        rw [hc6] at h6
        exact waitBeforeRelay_append (waitBeforeRelay_append (waitBeforeRelay_append
          (waitBeforeRelay_append (waitBeforeRelay_append h1 h2) h3) h4) h5) h6

/-- Applying `serve_wait_before_relay` on a concrete fully-piped server. -/
theorem serve_wait_before_relay_witness :
    WaitBeforeRelay (BridgeServer.serve
      { waitOk := fun _ => true, childWaitOk := true, exitCodeRes := .ok 0 }
      { stdin_is_pty := false, stdout_is_pty := false, stderr_is_pty := false
        stdin := some "si", stdout := some "so", stderr := some "se"
        conin := some "CONIN$", conin_pipe := some "ci"
        conout := some "CONOUT$", conout_pipe := some "co"
        input_mode := some 503, output_mode := some 7 }).1 :=
  serve_wait_before_relay _ _

lemma coninStage_abort {env : ServeEnv} {s : BridgeServer} {ci p : String}
    (hci : s.conin = some ci) (hcip : s.conin_pipe = some p)
    (hw : env.waitOk Relay.conin = false) :
    coninStage env s = ([.waitClient p false], some (.err "wait_for_pipe_client")) := by
  unfold coninStage
  rw [hci, hcip]
  simp [hw]

lemma stdinStage_abort {env : ServeEnv} {s : BridgeServer} {q : String}
    (hsi : s.stdin = some q) (hw : env.waitOk Relay.stdin = false) :
    stdinStage env s = ([.waitClient q false], some (.err "wait_for_pipe_client")) := by
  unfold stdinStage
  rw [hsi]
  simp [hw]

lemma serve_eq_of_conin_abort {env : ServeEnv} {s : BridgeServer}
    {tr : List Event} {o : SOutcome}
    (h : coninStage env s = (tr, some o)) :
    BridgeServer.serve env s = (tr, o) := by
  unfold BridgeServer.serve
  rw [h]

lemma coninStage_snd_none_cond (env : ServeEnv) (s : BridgeServer)
    (h : s.conin.isSome → s.conin_pipe.isSome ∧ env.waitOk Relay.conin = true) :
    (coninStage env s).2 = none := by
  unfold coninStage
  rcases hci : s.conin with _ | ci <;> rcases hcip : s.conin_pipe with _ | cip <;> simp_all

lemma conoutStage_snd_none_cond (env : ServeEnv) (s : BridgeServer)
    (h : s.conout.isSome → s.conout_pipe.isSome) :
    (conoutStage env s).2 = none :=
  conoutStage_snd_none env s h

lemma stdinStage_snd_none_cond (env : ServeEnv) (s : BridgeServer)
    (h : s.stdin.isSome → env.waitOk Relay.stdin = true) :
    (stdinStage env s).2 = none := by
  unfold stdinStage
  rcases hsi : s.stdin with _ | si <;> simp_all

lemma conoutStage_fst_of_pipe {env : ServeEnv} {s : BridgeServer} {co p : String}
    (hco : s.conout = some co) (hcop : s.conout_pipe = some p) :
    (conoutStage env s).1 = [.waitClient p (env.waitOk Relay.conout), .relayStart Relay.conout p] := by
  unfold conoutStage
  rw [hco, hcop]

lemma stdoutStage_fst_of_pipe {env : ServeEnv} {s : BridgeServer} {p : String}
    (hso : s.stdout = some p) :
    (stdoutStage env s).1 = [.waitClient p (env.waitOk Relay.stdout), .relayStart Relay.stdout p] := by
  unfold stdoutStage
  rw [hso]

lemma stderrStage_fst_of_pipe {env : ServeEnv} {s : BridgeServer} {p : String}
    (hse : s.stderr = some p) :
    (stderrStage env s).1 = [.waitClient p (env.waitOk Relay.stderr), .relayStart Relay.stderr p] := by
  unfold stderrStage
  rw [hse]

/-- C10: In `serve`, a failed client wait on the conin or stdin pipe aborts
`serve` with an error before the bridge child is waited on (`childWait` never
occurs in the trace), whereas a failed client wait on the conout, stdout or
stderr pipe is ignored and the corresponding relay thread is spawned
anyway. -/
theorem serve_wait_error_policy (env : ServeEnv) (s : BridgeServer) :
    (∀ ci p, s.conin = some ci → s.conin_pipe = some p →
      env.waitOk Relay.conin = false →
      BridgeServer.serve env s =
        ([Event.waitClient p false], SOutcome.err "wait_for_pipe_client") ∧
      Event.childWait ∉ (BridgeServer.serve env s).1) ∧
    (∀ q, s.stdin = some q → env.waitOk Relay.stdin = false →
      (s.conin.isSome → s.conin_pipe.isSome ∧ env.waitOk Relay.conin = true) →
      (s.conout.isSome → s.conout_pipe.isSome) →
      (BridgeServer.serve env s).2 = SOutcome.err "wait_for_pipe_client" ∧
      Event.childWait ∉ (BridgeServer.serve env s).1) ∧
    (∀ co p, s.conout = some co → s.conout_pipe = some p →
      env.waitOk Relay.conout = false →
      (s.conin.isSome → s.conin_pipe.isSome ∧ env.waitOk Relay.conin = true) →
      Event.relayStart Relay.conout p ∈ (BridgeServer.serve env s).1) ∧
    (∀ p, s.stdout = some p → env.waitOk Relay.stdout = false →
      (s.conin.isSome → s.conin_pipe.isSome ∧ env.waitOk Relay.conin = true) →
      (s.conout.isSome → s.conout_pipe.isSome) →
      (s.stdin.isSome → env.waitOk Relay.stdin = true) →
      Event.relayStart Relay.stdout p ∈ (BridgeServer.serve env s).1) ∧
    (∀ p, s.stderr = some p → env.waitOk Relay.stderr = false →
      (s.conin.isSome → s.conin_pipe.isSome ∧ env.waitOk Relay.conin = true) →
      (s.conout.isSome → s.conout_pipe.isSome) →
      (s.stdin.isSome → env.waitOk Relay.stdin = true) →
      Event.relayStart Relay.stderr p ∈ (BridgeServer.serve env s).1) := by
  refine ⟨?_, ?_, ?_, ?_, ?_⟩
  · intro ci p hci hcip hw
    have habort := serve_eq_of_conin_abort (coninStage_abort hci hcip hw)
    rw [habort]
    simp
  · intro q hsi hw hcok hook
    have hA := coninStage_snd_none_cond env s hcok
    have hB := conoutStage_snd_none_cond env s hook
    have hC := stdinStage_abort hsi hw
    have heq := serve_eq_of_stdin_abort env s (SOutcome.err "wait_for_pipe_client") hA hB
      (by rw [hC])
    rw [heq]
    refine ⟨rfl, ?_⟩
    simp [hC, List.mem_append]
    exact ⟨coninStage_no_childWait env s, conoutStage_no_childWait env s⟩
  · intro co p hco hcop hw hcok
    have hA := coninStage_snd_none_cond env s hcok
    have hB := conoutStage_snd_none_cond env s (fun _ => by rw [hcop]; rfl)
    obtain ⟨rest, hfst⟩ := serve_fst_prefix2 env s hA hB
    rw [hfst, conoutStage_fst_of_pipe hco hcop]
    simp
  · intro p hso hw hcok hook hsok
    have hA := coninStage_snd_none_cond env s hcok
    have hB := conoutStage_snd_none_cond env s hook
    have hC := stdinStage_snd_none_cond env s hsok
    rw [serve_fst_full env s hA hB hC, stdoutStage_fst_of_pipe hso]
    simp
  · intro p hse hw hcok hook hsok
    have hA := coninStage_snd_none_cond env s hcok
    have hB := conoutStage_snd_none_cond env s hook
    have hC := stdinStage_snd_none_cond env s hsok
    rw [serve_fst_full env s hA hB hC, stderrStage_fst_of_pipe hse]
    simp

/-- C6: After a successful `BridgeServer::start` from a fresh server, the
argument vector and the created server pipes are in bijection: for each of
the five pipe flags, the values that flag carries in the returned argument
vector are exactly the contents of the corresponding server-pipe field of
the returned state — every created pipe is named by its flag, and every
pipe-path flag names a created pipe. -/
theorem start_args_pipe_bijection {env : StartEnv} {a b c : Bool}
    {s : BridgeServer} {args : List String}
    (h : BridgeServer.start env (BridgeServer.new a b c) = .ok (s, args)) :
    argsFor "--stdin" args = s.stdin.toList ∧
    argsFor "--stdout" args = s.stdout.toList ∧
    argsFor "--stderr" args = s.stderr.toList ∧
    argsFor "--conin" args = s.conin_pipe.toList ∧
    argsFor "--conout" args = s.conout_pipe.toList := by
  obtain ⟨p1, p2, p3, p4, p5, -, -, -⟩ := start_ok_parts h
  exact ⟨p1, p2, p3, p4, p5⟩

/-- C9: After a successful `start` from a fresh server, whenever the `conin`
console handle is recorded the `conin_pipe` server pipe is recorded too, and
likewise for `conout`/`conout_pipe`; consequently the two `unwrap` calls in
`serve` never panic, for any outcome of the client waits and child wait. -/
theorem start_pipe_invariant_serve_safe {env : StartEnv} {a b c : Bool}
    {s : BridgeServer} {args : List String}
    (h : BridgeServer.start env (BridgeServer.new a b c) = .ok (s, args)) :
    (s.conin.isSome → s.conin_pipe.isSome) ∧
    (s.conout.isSome → s.conout_pipe.isSome) ∧
    (∀ senv : ServeEnv, (BridgeServer.serve senv s).2 ≠ SOutcome.panicked) := by
  obtain ⟨-, -, -, -, -, h1, h2, -⟩ := start_ok_parts h
  exact ⟨h1, h2, fun senv => serve_not_panicked senv s h1 h2⟩

lemma i16AsUsize_of_bounds {x : Int} (h0 : 0 ≤ x) (hB : x ≤ 32767) :
    i16AsUsize x = x.toNat := by
  unfold i16AsUsize
  rw [Int.emod_eq_of_lt h0 (by omega)]

lemma satSubI16_of_bounds {a b : Int} (hle : b ≤ a) (h0 : 0 ≤ b) (hB : a ≤ 32767) :
    satSubI16 a b = a - b := by
  unfold satSubI16
  rw [min_eq_right (by omega), max_eq_right (by omega)]

/-- C8: When the originator has a console, the `--width`/`--height` values
are the viewport dimensions (right minus left plus one, bottom minus top
plus one), and `--cursor-x`/`--cursor-y` give the cursor position with the
row taken relative to the viewport top (the hypotheses record that the
screen-buffer info is well formed and within the i16 ranges the console
reports). -/
theorem start_geometry_args {env : StartEnv} {a b c : Bool} {s : BridgeServer}
    {args : List String} {info : ConsoleScreenBufferInfo}
    (h : BridgeServer.start env (BridgeServer.new a b c) = .ok (s, args))
    (hopen : env.conoutOpens = true) (hinfo : env.screenInfoRes = .ok info)
    (hl0 : 0 ≤ info.srWindowLeft) (ht0 : 0 ≤ info.srWindowTop)
    (hx0 : 0 ≤ info.cursorX)
    (hlr : info.srWindowLeft ≤ info.srWindowRight)
    (htb : info.srWindowTop ≤ info.srWindowBottom)
    (hty : info.srWindowTop ≤ info.cursorY)
    (hrB : info.srWindowRight ≤ 32767) (hbB : info.srWindowBottom ≤ 32767)
    (hxB : info.cursorX ≤ 32767) (hyB : info.cursorY ≤ 32767) :
    argsFor "--width" args =
      [toString ((info.srWindowRight - info.srWindowLeft + 1).toNat)] ∧
    argsFor "--height" args =
      [toString ((info.srWindowBottom - info.srWindowTop + 1).toNat)] ∧
    argsFor "--cursor-x" args = [toString info.cursorX.toNat] ∧
    argsFor "--cursor-y" args = [toString ((info.cursorY - info.srWindowTop).toNat)] := by
  obtain ⟨-, -, -, -, -, -, -, G⟩ := start_ok_parts h
  obtain ⟨g1, g2, g3, g4⟩ := G info hopen hinfo
  have w1 : viewportWidth info = (info.srWindowRight - info.srWindowLeft + 1).toNat := by
    unfold viewportWidth
    rw [satSubI16_of_bounds hlr hl0 hrB, i16AsUsize_of_bounds (by omega) (by omega)]
    omega
  have w2 : viewportHeight info = (info.srWindowBottom - info.srWindowTop + 1).toNat := by
    unfold viewportHeight
    rw [satSubI16_of_bounds htb ht0 hbB, i16AsUsize_of_bounds (by omega) (by omega)]
    omega
  have w3 : cursorXArg info = info.cursorX.toNat := by
    unfold cursorXArg
    rw [i16AsUsize_of_bounds hx0 hxB]
  have w4 : cursorYArg info = (info.cursorY - info.srWindowTop).toNat := by
    unfold cursorYArg
    rw [satSubI16_of_bounds hty ht0 hyB, i16AsUsize_of_bounds (by omega) (by omega)]
  rw [w1] at g1
  rw [w2] at g2
  rw [w3] at g3
  rw [w4] at g4
  exact ⟨g1, g2, g3, g4⟩

/-- All the fallible calls of `start` succeed: every pipe creation works and,
for each console device that opens, the mode query and mode set succeed (and
the screen-buffer query for the output console). -/
def StartEnvOk (env : StartEnv) : Prop :=
  (∀ k, env.forTokenOk k = true) ∧
  (env.coninOpens = true →
    (∃ m, env.coninModeRes = .ok m) ∧ env.setConinModeOk = true) ∧
  (env.conoutOpens = true →
    (∃ m, env.conoutModeRes = .ok m) ∧
    (∃ i, env.screenInfoRes = .ok i) ∧ env.setConoutModeOk = true)

lemma start_ok_exists {env : StartEnv} (s0 : BridgeServer) (hok : StartEnvOk env) :
    ∃ p, BridgeServer.start env s0 = .ok p := by
  obtain ⟨hf, hci, hco⟩ := hok
  unfold BridgeServer.start
  have e1 : ∃ o, stdinStep env (s0, [], 0) = .ok o := by
    unfold stdinStep NamedPipeServer.forToken
    by_cases hp : s0.stdin_is_pty = true <;> simp [hp, hf 0]
  obtain ⟨⟨s1, a1, k1⟩, h1⟩ := e1
  rw [h1]
  dsimp only
  have e2 : ∃ o, stdoutStep env (s1, a1, k1) = .ok o := by
    unfold stdoutStep NamedPipeServer.forToken
    by_cases hp : s1.stdout_is_pty = true <;> simp [hp, hf k1]
  obtain ⟨⟨s2, a2, k2⟩, h2⟩ := e2
  rw [h2]
  dsimp only
  have e3 : ∃ o, stderrStep env (s2, a2, k2) = .ok o := by
    unfold stderrStep NamedPipeServer.forToken
    by_cases hp : s2.stderr_is_pty = true <;> simp [hp, hf k2]
  obtain ⟨⟨s3, a3, k3⟩, h3⟩ := e3
  rw [h3]
  dsimp only
  have e4 : ∃ o, coninStep env (s3, a3, k3) = .ok o := by
    unfold coninStep NamedPipeServer.forToken
    by_cases hopen : env.coninOpens = true
    · obtain ⟨⟨m, hm⟩, hset⟩ := hci hopen
      simp [hopen, hm, hset, hf k3]
    · simp [hopen]
  obtain ⟨⟨s4, a4, k4⟩, h4⟩ := e4
  rw [h4]
  dsimp only
  have e5 : ∃ o, conoutStep env (s4, a4, k4) = .ok o := by
    unfold conoutStep NamedPipeServer.forToken
    by_cases hopen : env.conoutOpens = true
    · obtain ⟨⟨m, hm⟩, ⟨i, hi⟩, hset⟩ := hco hopen
      simp [hopen, hm, hi, hset, hf k4]
    · simp [hopen]
  obtain ⟨⟨s5, a5, k5⟩, h5⟩ := e5
  rw [h5]
  exact ⟨(s5, a5), rfl⟩

/-- C5: Whenever a console-mode snapshot was taken during setup (both mode
fields recorded) and the console devices can be reopened, the `Drop` handler
— which Rust runs on every exit path of the originator before the
`BridgeServer` is destroyed — emits the soft terminal reset `ESC [ ! p` to
the output console and restores the saved output and input console modes. -/
theorem drop_restores_console_modes (env : DropEnv) (s : BridgeServer) (mi mo : Nat)
    (hin : s.input_mode = some mi) (hout : s.output_mode = some mo)
    (hco : env.conoutOpens = true) (hci : env.coninOpens = true) :
    BridgeServer.dropActions env s =
      [DropAction.write "CONOUT$" "\x1b[!p",
       DropAction.setMode "CONOUT$" mo,
       DropAction.setMode "CONIN$" mi] := by
  unfold BridgeServer.dropActions
  rw [hin, hout]
  simp [hco, hci]

/-- Applying `drop_restores_console_modes` to a concrete snapshot. -/
theorem drop_restores_console_modes_witness :
    BridgeServer.dropActions ⟨true, true⟩
      { stdin_is_pty := false, stdout_is_pty := false, stderr_is_pty := false
        stdin := none, stdout := none, stderr := none
        conin := some "CONIN$", conin_pipe := some "ci"
        conout := some "CONOUT$", conout_pipe := some "co"
        input_mode := some 503, output_mode := some 7 } =
      [DropAction.write "CONOUT$" "\x1b[!p", DropAction.setMode "CONOUT$" 7,
       DropAction.setMode "CONIN$" 503] :=
  drop_restores_console_modes ⟨true, true⟩ _ 503 7 rfl rfl rfl rfl

/-- The join recorded by an event, if any: the relay joined and the timeout
bound of the join (`none` for a plain `JoinHandle::join`). -/
def joinOf : Event → Option (Relay × Option Nat)
  | .joinRelay r t => some (r, t)
  | _ => none

/-- A serve environment in which every client wait, the child wait, and the
exit-code query succeed. -/
def allOkServeEnv : ServeEnv :=
  { waitOk := fun _ => true
    childWaitOk := true
    exitCodeRes := .ok 0 }

/-- An originator state holding all five server pipes. -/
def fullServer : BridgeServer :=
  { stdin_is_pty := false, stdout_is_pty := false, stderr_is_pty := false
    stdin := some "si", stdout := some "so", stderr := some "se"
    conin := some "CONIN$", conin_pipe := some "ci"
    conout := some "CONOUT$", conout_pipe := some "co"
    input_mode := some 503, output_mode := some 7 }

/-- C3 (evidence): after the child exits, the joins `serve` performs are
exactly plain unbounded `JoinHandle::join` calls (timeout `none`) on the
stdout, stderr and conout relays: no join is bounded by a timeout — the
`join_with_timeout` helper defined at bridge.rs:53-61 is never called — and
the stdin and conin relays are not joined at all. -/
theorem serve_joins_unbounded_eval :
    (BridgeServer.serve allOkServeEnv fullServer).1.filterMap joinOf =
      [(Relay.stdout, none), (Relay.stderr, none), (Relay.conout, none)] := rfl

/-- All-success start environment with console devices present. -/
def cStartEnv : StartEnv :=
  { supply := fun k => toString k
    forTokenOk := fun _ => true
    coninOpens := true
    coninModeRes := .ok 503
    setConinModeOk := true
    conoutOpens := true
    conoutModeRes := .ok 7
    screenInfoRes := .ok ⟨0, 2, 119, 31, 5, 3⟩
    setConoutModeOk := true }

lemma cStartEnv_ok : StartEnvOk cStartEnv :=
  ⟨fun _ => rfl, fun _ => ⟨⟨503, rfl⟩, rfl⟩,
   fun _ => ⟨⟨7, rfl⟩, ⟨⟨0, 2, 119, 31, 5, 3⟩, rfl⟩, rfl⟩⟩

/-- All-success serve environment whose child exits with code 42. -/
def cServeEnv : ServeEnv :=
  { waitOk := fun _ => true
    childWaitOk := true
    exitCodeRes := .ok 42 }

/-- A concrete `eledo` invocation from a `NotPrivileged` caller: one command
argument that resolves on `PATH`, with every Windows call succeeding and the
target command exiting with code 42. -/
def npEnv : EledoEnv :=
  { level := .NotPrivileged
    rawArgs := ["cmd"]
    findInPath := fun c => if c = "cmd" then some "C:/Windows/cmd.exe" else none
    tokenOk := true
    envBlockOk := true
    spawnOk := true
    directExitRes := .ok 42
    stdinIsPty := false
    stdoutIsPty := false
    stderrIsPty := false
    startEnv := cStartEnv
    bridgeFound := true
    bridgePath := "eledo-pty-bridge.exe"
    shellExecOk := true
    serveEnv := cServeEnv }

/-- The same invocation from an `Elevated` caller. -/
def elevEnv : EledoEnv := { npEnv with level := .Elevated }

/-- The same invocation from a `HighIntegrityAdmin` caller. -/
def hiaEnv : EledoEnv := { npEnv with level := .HighIntegrityAdmin }

/-- C1: The `eledo` front-end prints a usage diagnostic and exits with code 1
when no command argument is given, prints a not-found diagnostic and exits
with code 1 when the command does not resolve on `PATH`, and otherwise — on
the all-success path in which a child is launched — exits with the target
command's exit code `t` (directly spawned child for privileged callers; for
the bridged path, the bridge child exits with the code `BridgePtyClient::run`
returns, which is the target's exit code). -/
theorem eledo_exit_code_policy (env : EledoEnv) (t : Nat)
    (htok : env.tokenOk = true)
    (henv : env.envBlockOk = true)
    (hspawn : env.spawnOk = true)
    (hdirect : env.directExitRes = .ok t)
    (hbridge : env.bridgeFound = true)
    (hshell : env.shellExecOk = true)
    (hstart : StartEnvOk env.startEnv)
    (hwaits : ∀ r, env.serveEnv.waitOk r = true)
    (hcw : env.serveEnv.childWaitOk = true)
    (hserve : env.serveEnv.exitCodeRes = .ok (BridgePtyClient.run ⟨t⟩)) :
    (env.rawArgs = [] →
      eledoMain env =
        { diagnostics := ["USAGE: eledo COMMAND [ARGS]...",
            "No command or arguments were specified"]
          spawned := none
          exit := .code 1 }) ∧
    (∀ cmd rest, env.rawArgs = cmd :: rest → env.findInPath cmd = none →
      eledoMain env =
        { diagnostics := ["Unable to find " ++ cmd ++ " in path"]
          spawned := none
          exit := .code 1 }) ∧
    (∀ cmd rest path, env.rawArgs = cmd :: rest → env.findInPath cmd = some path →
      (eledoMain env).spawned.isSome = true ∧ (eledoMain env).exit = .code t) := by
  refine ⟨?_, ?_, ?_⟩
  · intro hargs
    simp [eledoMain, htok, hargs]
  · intro cmd rest hargs hfind
    simp [eledoMain, htok, hargs, hfind]
  · intro cmd rest path hargs hfind
    obtain ⟨⟨sS, argsS⟩, hS⟩ := start_ok_exists
      (BridgeServer.new env.stdinIsPty env.stdoutIsPty env.stderrIsPty) hstart
    obtain ⟨-, -, -, -, -, hi1, hi2, -⟩ := start_ok_parts hS
    have hserveOk : (BridgeServer.serve env.serveEnv sS).2 =
        SOutcome.ok (BridgePtyClient.run ⟨t⟩) :=
      serve_snd_ok env.serveEnv sS (BridgePtyClient.run ⟨t⟩) hi1 hi2 hwaits hcw hserve
    rcases hl : env.level with _ | _ | _ <;>
      simp [eledoMain, htok, hargs, hfind, henv, hl, hspawn, hdirect,
        startForCommand, hS, hbridge, hshell, hserveOk, BridgePtyClient.run]

/-- Applying `eledo_exit_code_policy` to the concrete `NotPrivileged`
invocation: a child is launched and the front-end exits with code 42. -/
theorem eledo_exit_code_policy_witness :
    (eledoMain npEnv).spawned.isSome = true ∧
    (eledoMain npEnv).exit = MainExit.code 42 :=
  (eledo_exit_code_policy npEnv 42 rfl rfl rfl rfl rfl rfl cStartEnv_ok
    (fun _ => rfl) rfl rfl).2.2 "cmd" [] "C:/Windows/cmd.exe" rfl rfl

/-- C2 (counterexample): from the `NotPrivileged` caller of the concrete
invocation `npEnv`, `eledo` does not take the direct spawn path: it launches
the bridge child via `ShellExecute("runas")`. -/
theorem eledo_notprivileged_direct_cex :
    isDirectSpawn (eledoMain npEnv).spawned = false ∧
    isBridgeSpawn (eledoMain npEnv).spawned = true := by
  constructor <;> rfl

/-- C2 (amended): in the `eledo` front-end, a `NotPrivileged` caller takes
the bridged path (bridge child launched via `ShellExecute("runas")`, server
pipes created), while an `Elevated` or `HighIntegrityAdmin` caller takes the
direct spawn path (no bridge child). -/
theorem eledo_path_selection (env : EledoEnv) (cmd path : String) (rest : List String)
    (htok : env.tokenOk = true) (hargs : env.rawArgs = cmd :: rest)
    (hfind : env.findInPath cmd = some path) (henv : env.envBlockOk = true)
    (hspawn : env.spawnOk = true) (hstart : StartEnvOk env.startEnv)
    (hbridge : env.bridgeFound = true) (hshell : env.shellExecOk = true) :
    (env.level = .NotPrivileged →
      isBridgeSpawn (eledoMain env).spawned = true ∧
      isDirectSpawn (eledoMain env).spawned = false) ∧
    ((env.level = .Elevated ∨ env.level = .HighIntegrityAdmin) →
      isDirectSpawn (eledoMain env).spawned = true ∧
      isBridgeSpawn (eledoMain env).spawned = false) := by
  constructor
  · intro hl
    obtain ⟨⟨sS, argsS⟩, hS⟩ := start_ok_exists
      (BridgeServer.new env.stdinIsPty env.stdoutIsPty env.stderrIsPty) hstart
    rcases ho : (BridgeServer.serve env.serveEnv sS).2 with _ | e | cexit <;>
      simp [eledoMain, htok, hargs, hfind, henv, hl, startForCommand, hS,
        hbridge, hshell, ho, isBridgeSpawn, isDirectSpawn]
  · intro hl
    rcases hl with hl | hl <;> rcases hd : env.directExitRes with e | cexit <;>
      simp [eledoMain, htok, hargs, hfind, henv, hl, hspawn, hd,
        isDirectSpawn, isBridgeSpawn]

/-- Applying `eledo_path_selection` to the concrete invocations: the
`NotPrivileged` caller bridges, the `Elevated` caller spawns directly. -/
theorem eledo_path_selection_witness :
    (isBridgeSpawn (eledoMain npEnv).spawned = true ∧
     isDirectSpawn (eledoMain npEnv).spawned = false) ∧
    (isDirectSpawn (eledoMain elevEnv).spawned = true ∧
     isBridgeSpawn (eledoMain elevEnv).spawned = false) :=
  ⟨(eledo_path_selection npEnv "cmd" "C:/Windows/cmd.exe" [] rfl rfl rfl rfl rfl
      cStartEnv_ok rfl rfl).1 rfl,
   (eledo_path_selection elevEnv "cmd" "C:/Windows/cmd.exe" [] rfl rfl rfl rfl rfl
      cStartEnv_ok rfl rfl).2 (Or.inl rfl)⟩

/-- C4 (counterexample): for the `Elevated` caller of the concrete invocation
`elevEnv`, the directly spawned child runs under the interactive shell
process's token, which is not a medium-integrity token derived from the
caller's token. -/
theorem eledo_elevated_token_cex :
    spawnToken (eledoMain elevEnv).spawned = some TokenKind.shellProcess ∧
    TokenKind.isMediumSaferDerived TokenKind.shellProcess = false := by
  constructor <;> rfl

/-- C4 (amended): a `HighIntegrityAdmin` caller gets a direct spawn (no
bridge) under the medium-integrity token derived from the caller's token,
while an `Elevated` caller gets a direct spawn under the interactive shell
process's token. -/
theorem eledo_direct_spawn_tokens (env : EledoEnv) (cmd path : String) (rest : List String)
    (htok : env.tokenOk = true) (hargs : env.rawArgs = cmd :: rest)
    (hfind : env.findInPath cmd = some path) (henv : env.envBlockOk = true)
    (hspawn : env.spawnOk = true) :
    (env.level = .HighIntegrityAdmin →
      (eledoMain env).spawned =
        some (SpawnKind.direct (TokenKind.mediumSaferFrom TokenKind.currentProcess)
          (path :: rest))) ∧
    (env.level = .Elevated →
      (eledoMain env).spawned =
        some (SpawnKind.direct TokenKind.shellProcess (path :: rest))) := by
  constructor <;> intro hl <;> rcases hd : env.directExitRes with e | cexit <;>
    simp [eledoMain, targetTokenFor, htok, hargs, hfind, henv, hl, hspawn, hd]

/-- Applying `eledo_direct_spawn_tokens` to the concrete invocations. -/
theorem eledo_direct_spawn_tokens_witness :
    (eledoMain hiaEnv).spawned =
      some (SpawnKind.direct (TokenKind.mediumSaferFrom TokenKind.currentProcess)
        ["C:/Windows/cmd.exe"]) ∧
    (eledoMain elevEnv).spawned =
      some (SpawnKind.direct TokenKind.shellProcess ["C:/Windows/cmd.exe"]) :=
  ⟨(eledo_direct_spawn_tokens hiaEnv "cmd" "C:/Windows/cmd.exe" [] rfl rfl rfl rfl rfl).1 rfl,
   (eledo_direct_spawn_tokens elevEnv "cmd" "C:/Windows/cmd.exe" [] rfl rfl rfl rfl rfl).2 rfl⟩

/-- The server state `start` produces from `cStartEnv` on a fresh server. -/
def cStartState : BridgeServer :=
  { stdin_is_pty := false, stdout_is_pty := false, stderr_is_pty := false
    stdin := some "0", stdout := some "1", stderr := some "2"
    conin := some "CONIN$", conin_pipe := some "3"
    conout := some "CONOUT$", conout_pipe := some "4"
    input_mode := some 503, output_mode := some 7 }

/-- The argument vector `start` produces from `cStartEnv` on a fresh server. -/
def cStartArgs : List String :=
  ["--stdin", "0", "--stdout", "1", "--stderr", "2", "--conin", "3",
   "--conout", "4", "--width", "120", "--height", "30",
   "--cursor-x", "5", "--cursor-y", "1"]

/-- Applying `start_args_pipe_bijection` to the concrete run of `start`. -/
theorem start_args_pipe_bijection_witness :
    argsFor "--stdin" cStartArgs = cStartState.stdin.toList ∧
    argsFor "--stdout" cStartArgs = cStartState.stdout.toList ∧
    argsFor "--stderr" cStartArgs = cStartState.stderr.toList ∧
    argsFor "--conin" cStartArgs = cStartState.conin_pipe.toList ∧
    argsFor "--conout" cStartArgs = cStartState.conout_pipe.toList :=
  start_args_pipe_bijection
    (show BridgeServer.start cStartEnv (BridgeServer.new false false false) =
      .ok (cStartState, cStartArgs) from rfl)

/-- Applying `start_pipe_invariant_serve_safe` to the concrete run of
`start`, with the panic-freedom conclusion instantiated at a concrete serve
environment. -/
theorem start_pipe_invariant_serve_safe_witness :
    (cStartState.conin.isSome → cStartState.conin_pipe.isSome) ∧
    (cStartState.conout.isSome → cStartState.conout_pipe.isSome) ∧
    (BridgeServer.serve allOkServeEnv cStartState).2 ≠ SOutcome.panicked :=
  (fun P => ⟨P.1, P.2.1, P.2.2 allOkServeEnv⟩)
    (start_pipe_invariant_serve_safe
      (show BridgeServer.start cStartEnv (BridgeServer.new false false false) =
        .ok (cStartState, cStartArgs) from rfl))

/-- Applying `start_geometry_args` to the concrete run of `start`: window
rectangle left 0, top 2, right 119, bottom 31, cursor at column 5, row 3. -/
theorem start_geometry_args_witness :
    argsFor "--width" cStartArgs = [toString (((119 : Int) - 0 + 1).toNat)] ∧
    argsFor "--height" cStartArgs = [toString (((31 : Int) - 2 + 1).toNat)] ∧
    argsFor "--cursor-x" cStartArgs = [toString ((5 : Int).toNat)] ∧
    argsFor "--cursor-y" cStartArgs = [toString (((3 : Int) - 2).toNat)] :=
  start_geometry_args
    (show BridgeServer.start cStartEnv (BridgeServer.new false false false) =
      .ok (cStartState, cStartArgs) from rfl)
    rfl rfl (by decide) (by decide) (by decide) (by decide) (by decide) (by decide)
    (by decide) (by decide) (by decide) (by decide)

/-- A serve environment where only the conin client wait fails. -/
def coninFailEnv : ServeEnv :=
  { waitOk := fun r => match r with
      | .conin => false
      | _ => true
    childWaitOk := true
    exitCodeRes := .ok 0 }

/-- A serve environment where only the conout client wait fails. -/
def conoutFailEnv : ServeEnv :=
  { waitOk := fun r => match r with
      | .conout => false
      | _ => true
    childWaitOk := true
    exitCodeRes := .ok 0 }

/-- Applying `serve_wait_error_policy` on the fully-piped server: a conin
wait failure aborts `serve` immediately with an error (no child wait),
while a conout wait failure still spawns the conout relay. -/
theorem serve_wait_error_policy_witness :
    (BridgeServer.serve coninFailEnv fullServer =
      ([Event.waitClient "ci" false], SOutcome.err "wait_for_pipe_client")) ∧
    Event.relayStart Relay.conout "co" ∈
      (BridgeServer.serve conoutFailEnv fullServer).1 :=
  ⟨((serve_wait_error_policy coninFailEnv fullServer).1 "CONIN$" "ci" rfl rfl rfl).1,
   (serve_wait_error_policy conoutFailEnv fullServer).2.2.1 "CONOUT$" "co" rfl rfl rfl
     (fun _ => ⟨rfl, rfl⟩)⟩

end EleDo
